import Mathlib

/-!
Verification of the Windows plugin-registration boilerplate of
`flutter_mcp_common` (files `src/windows/flutter_mcp_common_plugin.h` and
`src/windows/flutter_mcp_common_plugin_c_api.cpp`).

The C++ surface is glue code: a plugin class declaration and a C-linkage shim
that resolves a typed registrar from an opaque handle via the host's singleton
`flutter::PluginRegistrarManager` and forwards it to
`FlutterMcpCommonPlugin::RegisterWithRegistrar`.  We embed the shim as a pure
state-passing function that also records a trace of the observable actions it
performs (host-API calls, and the error signals the C++ code could in
principle exhibit: throwing, aborting, returning an error value).  Host
collaborators (the registrar manager, the host plugin registry) are given
explicit state types; the one repository function whose body is not among the
supplied files (`FlutterMcpCommonPlugin::RegisterWithRegistrar`) is modelled
from the specification, as its doc comment records.
-/

/-- The opaque ABI-stable handle type `FlutterDesktopPluginRegistrarRef`
passed by the host runtime.  Modelled as a natural number naming the handle;
`0` models the null handle, every other value a valid handle. -/
abbrev FlutterDesktopPluginRegistrarRef := Nat

/-- The typed registrar `flutter::PluginRegistrarWindows`.  A value of this
type models a live (hence non-null) typed registrar object; `ref` is the
opaque handle it was resolved from. -/
structure PluginRegistrarWindows where
  ref : Nat
deriving DecidableEq, Repr

/-- Association-list lookup used by the registrar-manager model: find the
typed registrar cached for an opaque handle, if any. -/
def lookupRegistrar : List (Nat × PluginRegistrarWindows) → Nat →
    Option PluginRegistrarWindows
  | [], _ => none
  | (k, v) :: rest, ref => if k = ref then some v else lookupRegistrar rest ref

/-- State of the host collaborator `flutter::PluginRegistrarManager`: the
process-wide singleton that hands out one typed registrar per opaque handle,
caching them.  This type belongs to the host runtime, not to the repository;
it is modelled only as far as the shim observes it. -/
structure PluginRegistrarManager where
  cache : List (Nat × PluginRegistrarWindows)
deriving DecidableEq, Repr

/-- Well-formedness of the manager cache: every cached typed registrar wraps
exactly the handle it is cached under. -/
def PluginRegistrarManager.WF (m : PluginRegistrarManager) : Prop :=
  ∀ p ∈ m.cache, (Prod.snd p).ref = Prod.fst p

instance (m : PluginRegistrarManager) : Decidable m.WF :=
  inferInstanceAs (Decidable (∀ p ∈ m.cache, (Prod.snd p).ref = Prod.fst p))

/-- The host operation `PluginRegistrarManager::GetRegistrar<PluginRegistrarWindows>`:
return the typed registrar for an opaque handle, creating and caching one
wrapping the handle on first resolution.  Returns the registrar and the
updated manager state. -/
def PluginRegistrarManager.GetRegistrar (m : PluginRegistrarManager)
    (ref : Nat) : PluginRegistrarWindows × PluginRegistrarManager :=
  match lookupRegistrar m.cache ref with
  | some r => (r, m)
  | none => (⟨ref⟩, ⟨(ref, (⟨ref⟩ : PluginRegistrarWindows)) :: m.cache⟩)

/-- Identity of a method-call handler that can be wired to a method channel.
The only handler this repository contributes is the plugin's
`HandleMethodCall` member (declared at
`src/windows/flutter_mcp_common_plugin.h` lines 24-26). -/
inductive Handler where
  | flutterMcpCommonPluginHandler
deriving DecidableEq, Repr

/-- The host's plugin registry as far as this plugin observes it: which
method-call handler is wired for which typed registrar's method channel. -/
structure HostRegistry where
  wired : List (PluginRegistrarWindows × Handler)
deriving DecidableEq, Repr

/-- A subsequent method-channel call arriving through registrar `r` is
dispatched to handler `h` exactly when that pair is wired in the registry. -/
def HostRegistry.dispatchesTo (reg : HostRegistry) (r : PluginRegistrarWindows)
    (h : Handler) : Prop :=
  (r, h) ∈ reg.wired

instance (reg : HostRegistry) (r : PluginRegistrarWindows) (h : Handler) :
    Decidable (reg.dispatchesTo r h) :=
  inferInstanceAs (Decidable ((r, h) ∈ reg.wired))

/-- Observable actions of the embedded C++ code.  The first two record the
calls the shim makes into the host API; the last three are the error signals
C++ code could in principle exhibit (throwing an exception, aborting or
trapping, returning an error value) and are emitted by a definition exactly
where the corresponding C++ would do so. -/
inductive Event where
  | getRegistrarCall (ref : Nat) (res : PluginRegistrarWindows)
  | registerWithRegistrarCall (r : PluginRegistrarWindows)
  | throwException
  | abortTrap
  | errorReturned
deriving DecidableEq, Repr

/-- The instance state of class `FlutterMcpCommonPlugin`.  The class
declaration (`src/windows/flutter_mcp_common_plugin.h` lines 11-27) declares
no data members, so an instance carries no state: the structure is empty. -/
structure FlutterMcpCommonPlugin where
deriving DecidableEq, Repr

/-- Result of running the modelled `RegisterWithRegistrar`: the host registry
afterwards and the trace of observable actions. -/
structure RegisterResult where
  post : HostRegistry
  trace : List Event
deriving DecidableEq, Repr

/-- Modelled from the spec: the body of
`FlutterMcpCommonPlugin::RegisterWithRegistrar` is not among the supplied
source files; `src/windows/flutter_mcp_common_plugin.h` line 13 gives only its
declaration.  Spec section 4.1 states the contract: "given a non-null
registrar, must not throw/abort; must leave the host's plugin registry in a
state where subsequent calls into the method channel are dispatched to the
handler", and section 1 states that the code "registers a method-call
handler".  Modelled accordingly as wiring the plugin's method-call handler to
the given registrar's method channel, emitting no error signal. -/
def FlutterMcpCommonPlugin.RegisterWithRegistrar
    (registrar : PluginRegistrarWindows) (reg : HostRegistry) :
    RegisterResult :=
  { post := ⟨(registrar, Handler.flutterMcpCommonPluginHandler) :: reg.wired⟩
    trace := [] }

/-- The whole mutable world the shim can reach: the singleton registrar
manager, the host plugin registry it registers into through the forwarded
call, and `other`, standing for every piece of process state the shim does
not own (used to state the frame property). -/
structure World where
  manager : PluginRegistrarManager
  registry : HostRegistry
  other : Nat
deriving DecidableEq, Repr

/-- Result of running the shim: the value it returns (`Unit`, for C++
`void`), the world afterwards, and the trace of observable actions. -/
structure ShimResult where
  ret : Unit
  post : World
  trace : List Event
deriving DecidableEq, Repr

/-- Shallow embedding of the exported C-API shim
`FlutterMcpCommonPluginCApiRegisterWithRegistrar`
(`src/windows/flutter_mcp_common_plugin_c_api.cpp` lines 7-12).  The body is
the single statement
`FlutterMcpCommonPlugin::RegisterWithRegistrar(PluginRegistrarManager::GetInstance()->GetRegistrar<PluginRegistrarWindows>(registrar))`:
resolve the typed registrar for the handle through the singleton manager,
then forward it to the plugin class's registration entry point.  No
validation, no branch, no error path, no return value. -/
def FlutterMcpCommonPluginCApiRegisterWithRegistrar (w : World)
    (registrar : FlutterDesktopPluginRegistrarRef) : ShimResult :=
  let resolved := w.manager.GetRegistrar registrar
  let callee :=
    FlutterMcpCommonPlugin.RegisterWithRegistrar resolved.fst w.registry
  { ret := ()
    post := { manager := resolved.snd, registry := callee.post
              other := w.other }
    trace := Event.getRegistrarCall registrar resolved.fst ::
      Event.registerWithRegistrarCall resolved.fst :: callee.trace }

/-- Running the shim twice in sequence with the same handle, threading the
world through. -/
def shimTwice (w : World) (r : FlutterDesktopPluginRegistrarRef) :
    ShimResult :=
  FlutterMcpCommonPluginCApiRegisterWithRegistrar
    (FlutterMcpCommonPluginCApiRegisterWithRegistrar w r).post r

/-- The registrars passed to `FlutterMcpCommonPlugin::RegisterWithRegistrar`
during a run, read off the trace. -/
def passedRegistrars (res : ShimResult) : List PluginRegistrarWindows :=
  res.trace.filterMap fun e =>
    match e with
    | Event.registerWithRegistrarCall r => some r
    | _ => none

/-- Whether an observable action is part of registering the plugin against
the host registry (a host-API call of the shim), as opposed to an error
signal or any other effect. -/
def Event.isRegistrationActivity : Event → Bool
  | Event.getRegistrarCall _ _ => true
  | Event.registerWithRegistrarCall _ => true
  | _ => false

/-- Status of a C++ special member function, as read off a class
declaration. -/
inductive SpecialMemberStatus where
  | implicitlyDeclared
  | userDeclared
  | deleted
deriving DecidableEq, Repr

/-- Facts of a C++ class declaration relevant here: its name, its data
members, and the status of its copy constructor and copy assignment. -/
structure CppClassDecl where
  className : String
  dataFields : List String
  copyConstructor : SpecialMemberStatus
  copyAssignment : SpecialMemberStatus
deriving DecidableEq, Repr

/-- A class is copy-constructible at compile time unless its copy
constructor is deleted. -/
def CppClassDecl.copyConstructible (c : CppClassDecl) : Bool :=
  match c.copyConstructor with
  | SpecialMemberStatus.deleted => false
  | _ => true

/-- A class is copy-assignable at compile time unless its copy assignment is
deleted. -/
def CppClassDecl.copyAssignable (c : CppClassDecl) : Bool :=
  match c.copyAssignment with
  | SpecialMemberStatus.deleted => false
  | _ => true

/-- Embedding of the declaration of class `FlutterMcpCommonPlugin`
(`src/windows/flutter_mcp_common_plugin.h` lines 11-27): no data members; the
copy constructor and the copy assignment operator are both `= delete`
(lines 20-21). -/
def FlutterMcpCommonPluginDecl : CppClassDecl :=
  { className := "FlutterMcpCommonPlugin"
    dataFields := []
    copyConstructor := SpecialMemberStatus.deleted
    copyAssignment := SpecialMemberStatus.deleted }

/-- Facts of a C-linkage function declaration: name, parameter type names in
order, return type name. -/
structure CFunctionDecl where
  name : String
  paramTypes : List String
  returnType : String
deriving DecidableEq, Repr

/-- Embedding of the signature of the exported shim
(`src/windows/flutter_mcp_common_plugin_c_api.cpp` lines 7-8): one parameter
of type `FlutterDesktopPluginRegistrarRef`, returning `void`. -/
def FlutterMcpCommonPluginCApiRegisterWithRegistrarDecl : CFunctionDecl :=
  { name := "FlutterMcpCommonPluginCApiRegisterWithRegistrar"
    paramTypes := ["FlutterDesktopPluginRegistrarRef"]
    returnType := "void" }

/-- A concrete world used by the witnesses: empty manager cache, empty
registry, an arbitrary value in the frame component. -/
def sampleWorld : World :=
  { manager := ⟨[]⟩, registry := ⟨[]⟩, other := 7 }

/-- A second concrete world agreeing with `sampleWorld` on the manager but
differing everywhere else, used by the determinism witness. -/
def sampleWorldB : World :=
  { manager := ⟨[]⟩
    registry := ⟨[(⟨5⟩, Handler.flutterMcpCommonPluginHandler)]⟩
    other := 99 }

/-- If the cache is well formed, a successful lookup returns a registrar
wrapping the looked-up handle. -/
theorem lookupRegistrar_ref (cache : List (Nat × PluginRegistrarWindows))
    (hwf : ∀ p ∈ cache, (Prod.snd p).ref = Prod.fst p) (r : Nat)
    (v : PluginRegistrarWindows) (h : lookupRegistrar cache r = some v) :
    v.ref = r := by
  induction cache with
  | nil => simp [lookupRegistrar] at h
  | cons hd tl ih =>
      obtain ⟨k, u⟩ := hd
      by_cases hk : k = r
      · subst hk
        have hu : u.ref = k := hwf (k, u) (List.mem_cons_self _ _)
        simp [lookupRegistrar] at h
        simp_all
      · simp [lookupRegistrar, hk] at h
        exact ih (fun p hp => hwf p (List.mem_cons_of_mem _ hp)) h

/-- On a well-formed manager, the registrar resolved for a handle wraps that
handle. -/
theorem GetRegistrar_ref (m : PluginRegistrarManager) (hwf : m.WF)
    (r : Nat) : (m.GetRegistrar r).fst.ref = r := by
  unfold PluginRegistrarManager.GetRegistrar
  cases h : lookupRegistrar m.cache r with
  | none => rfl
  | some v => simpa using lookupRegistrar_ref m.cache hwf r v h

/-- C1: for every valid opaque registrar handle, the shim makes exactly one
call to `FlutterMcpCommonPlugin::RegisterWithRegistrar`, and the argument of
that call is the typed `PluginRegistrarWindows` registrar obtained from that
same handle via the singleton `PluginRegistrarManager`: the list of
registrars passed during the run is exactly the singleton of the
manager-resolved registrar. -/
theorem shim_exactly_one_register_call (w : World)
    (r : FlutterDesktopPluginRegistrarRef) (h : r ≠ 0) :
    passedRegistrars (FlutterMcpCommonPluginCApiRegisterWithRegistrar w r) =
      [(w.manager.GetRegistrar r).fst] := rfl

theorem shim_exactly_one_register_call_witness :
    (1 : Nat) ≠ 0 ∧
    passedRegistrars
        (FlutterMcpCommonPluginCApiRegisterWithRegistrar sampleWorld 1) =
      [(sampleWorld.manager.GetRegistrar 1).fst] :=
  ⟨by decide, shim_exactly_one_register_call sampleWorld 1 (by decide)⟩

/-- C2: invoking the shim on a registrar handle forwards the handle into a
typed registrar object (the resolved registrar wraps the handle) and
registers a method-call handler: after the call the host registry dispatches
method-channel calls through that registrar to the plugin's handler. -/
theorem shim_wires_handler (w : World)
    (r : FlutterDesktopPluginRegistrarRef) (h : r ≠ 0)
    (hwf : w.manager.WF) :
    (w.manager.GetRegistrar r).fst.ref = r ∧
    (FlutterMcpCommonPluginCApiRegisterWithRegistrar w
        r).post.registry.dispatchesTo (w.manager.GetRegistrar r).fst
      Handler.flutterMcpCommonPluginHandler :=
  ⟨GetRegistrar_ref w.manager hwf r, List.mem_cons_self _ _⟩

theorem shim_wires_handler_witness :
    ((1 : Nat) ≠ 0 ∧ sampleWorld.manager.WF) ∧
    ((sampleWorld.manager.GetRegistrar 1).fst.ref = 1 ∧
      (FlutterMcpCommonPluginCApiRegisterWithRegistrar sampleWorld
          1).post.registry.dispatchesTo
        (sampleWorld.manager.GetRegistrar 1).fst
        Handler.flutterMcpCommonPluginHandler) :=
  ⟨⟨by decide, by decide⟩,
    shim_wires_handler sampleWorld 1 (by decide) (by decide)⟩

/-- C3: for every input handle, the null handle `0` and already-registered
handles included, the shim signals no error: it returns the `void` value and
its trace contains no thrown exception, no abort, and no returned error
value. -/
theorem shim_signals_no_error (w : World)
    (r : FlutterDesktopPluginRegistrarRef) :
    (FlutterMcpCommonPluginCApiRegisterWithRegistrar w r).ret = () ∧
    Event.throwException ∉
      (FlutterMcpCommonPluginCApiRegisterWithRegistrar w r).trace ∧
    Event.abortTrap ∉
      (FlutterMcpCommonPluginCApiRegisterWithRegistrar w r).trace ∧
    Event.errorReturned ∉
      (FlutterMcpCommonPluginCApiRegisterWithRegistrar w r).trace := by
  refine ⟨rfl, ?_, ?_, ?_⟩ <;>
    simp [FlutterMcpCommonPluginCApiRegisterWithRegistrar,
      FlutterMcpCommonPlugin.RegisterWithRegistrar]

/-- C4: for every non-null `PluginRegistrarWindows` pointer (a value of the
type models a live non-null registrar), calling
`FlutterMcpCommonPlugin::RegisterWithRegistrar` neither throws nor aborts:
its trace contains no thrown exception and no abort. -/
theorem RegisterWithRegistrar_no_throw_no_abort
    (registrar : PluginRegistrarWindows) (reg : HostRegistry) :
    Event.throwException ∉
      (FlutterMcpCommonPlugin.RegisterWithRegistrar registrar reg).trace ∧
    Event.abortTrap ∉
      (FlutterMcpCommonPlugin.RegisterWithRegistrar registrar reg).trace := by
  constructor <;> simp [FlutterMcpCommonPlugin.RegisterWithRegistrar]

/-- C5: for every valid registrar handle, invoking the shim twice in a row
with that same handle never aborts and never throws: neither the first nor
the second run's trace contains an abort or a thrown exception. -/
theorem shim_repeat_no_crash (w : World)
    (r : FlutterDesktopPluginRegistrarRef) (h : r ≠ 0) :
    (Event.abortTrap ∉
        (FlutterMcpCommonPluginCApiRegisterWithRegistrar w r).trace ∧
      Event.throwException ∉
        (FlutterMcpCommonPluginCApiRegisterWithRegistrar w r).trace) ∧
    (Event.abortTrap ∉ (shimTwice w r).trace ∧
      Event.throwException ∉ (shimTwice w r).trace) := by
  refine ⟨⟨?_, ?_⟩, ?_, ?_⟩ <;>
    simp [FlutterMcpCommonPluginCApiRegisterWithRegistrar, shimTwice,
      FlutterMcpCommonPlugin.RegisterWithRegistrar]

theorem shim_repeat_no_crash_witness :
    (1 : Nat) ≠ 0 ∧
    ((Event.abortTrap ∉
        (FlutterMcpCommonPluginCApiRegisterWithRegistrar sampleWorld
          1).trace ∧
      Event.throwException ∉
        (FlutterMcpCommonPluginCApiRegisterWithRegistrar sampleWorld
          1).trace) ∧
    (Event.abortTrap ∉ (shimTwice sampleWorld 1).trace ∧
      Event.throwException ∉ (shimTwice sampleWorld 1).trace)) :=
  ⟨by decide, shim_repeat_no_crash sampleWorld 1 (by decide)⟩

/-- C6: the class `FlutterMcpCommonPlugin` cannot be copy-constructed and
cannot be copy-assigned: its declaration marks both the copy constructor and
the copy assignment operator deleted, so the class is neither
copy-constructible nor copy-assignable at compile time. -/
theorem plugin_noncopyable :
    FlutterMcpCommonPluginDecl.copyConstructor =
      SpecialMemberStatus.deleted ∧
    FlutterMcpCommonPluginDecl.copyAssignment =
      SpecialMemberStatus.deleted ∧
    FlutterMcpCommonPluginDecl.copyConstructible = false ∧
    FlutterMcpCommonPluginDecl.copyAssignable = false :=
  ⟨rfl, rfl, rfl, rfl⟩

/-- C7: the class `FlutterMcpCommonPlugin` declares no data fields, so an
instance carries no state: any two instance states are equal, and every
operation on the instance state preserves it. -/
theorem plugin_stateless :
    FlutterMcpCommonPluginDecl.dataFields = [] ∧
    (∀ p q : FlutterMcpCommonPlugin, p = q) ∧
    (∀ (f : FlutterMcpCommonPlugin → FlutterMcpCommonPlugin)
      (p : FlutterMcpCommonPlugin), f p = p) := by
  have hpq : ∀ p q : FlutterMcpCommonPlugin, p = q := by
    intro p q
    cases p
    cases q
    rfl
  exact ⟨rfl, hpq, fun f p => hpq (f p) p⟩

/-- C8: the exported C-API function takes exactly one argument, of the
opaque type `FlutterDesktopPluginRegistrarRef`, returns `void`, and its only
effect is registering the plugin: the returned value is the `void` value,
the frame component of the world is untouched, and every action in its trace
is registration activity through the singleton manager. -/
theorem capi_signature_and_effect :
    FlutterMcpCommonPluginCApiRegisterWithRegistrarDecl.paramTypes =
      ["FlutterDesktopPluginRegistrarRef"] ∧
    FlutterMcpCommonPluginCApiRegisterWithRegistrarDecl.paramTypes.length =
      1 ∧
    FlutterMcpCommonPluginCApiRegisterWithRegistrarDecl.returnType =
      "void" ∧
    ∀ (w : World) (r : FlutterDesktopPluginRegistrarRef),
      (FlutterMcpCommonPluginCApiRegisterWithRegistrar w r).ret = () ∧
      (FlutterMcpCommonPluginCApiRegisterWithRegistrar w r).post.other =
        w.other ∧
      ((FlutterMcpCommonPluginCApiRegisterWithRegistrar w r).trace.all
        Event.isRegistrationActivity) = true :=
  ⟨rfl, rfl, rfl, fun _ _ => ⟨rfl, rfl, rfl⟩⟩

/-- C9: the shim is deterministic and depends only on the handle and the
singleton manager: two invocations from worlds with equal manager states and
with equal handles resolve and pass equal typed registrars to
`RegisterWithRegistrar`, whatever the rest of the two worlds holds. -/
theorem shim_deterministic (w₁ w₂ : World)
    (r₁ r₂ : FlutterDesktopPluginRegistrarRef)
    (hm : w₁.manager = w₂.manager) (hr : r₁ = r₂) :
    passedRegistrars (FlutterMcpCommonPluginCApiRegisterWithRegistrar w₁
        r₁) =
      passedRegistrars (FlutterMcpCommonPluginCApiRegisterWithRegistrar w₂
        r₂) := by
  subst hr
  show [(w₁.manager.GetRegistrar r₁).fst] =
    [(w₂.manager.GetRegistrar r₁).fst]
  rw [hm]

theorem shim_deterministic_witness :
    (sampleWorld.manager = sampleWorldB.manager ∧ (1 : Nat) = 1) ∧
    passedRegistrars
        (FlutterMcpCommonPluginCApiRegisterWithRegistrar sampleWorld 1) =
      passedRegistrars
        (FlutterMcpCommonPluginCApiRegisterWithRegistrar sampleWorldB 1) :=
  ⟨⟨by decide, rfl⟩,
    shim_deterministic sampleWorld sampleWorldB 1 1 (by decide) rfl⟩

/-- C10: the shim has no side effect of its own beyond the delegated
registration: the frame component of the world is unchanged, the manager
changes exactly as its `GetRegistrar` lookup dictates, and the registry
changes exactly as the forwarded `RegisterWithRegistrar` call dictates. -/
theorem shim_frame (w : World) (r : FlutterDesktopPluginRegistrarRef) :
    (FlutterMcpCommonPluginCApiRegisterWithRegistrar w r).post.other =
      w.other ∧
    (FlutterMcpCommonPluginCApiRegisterWithRegistrar w r).post.manager =
      (w.manager.GetRegistrar r).snd ∧
    (FlutterMcpCommonPluginCApiRegisterWithRegistrar w r).post.registry =
      (FlutterMcpCommonPlugin.RegisterWithRegistrar
        (w.manager.GetRegistrar r).fst w.registry).post :=
  ⟨rfl, rfl, rfl⟩
